import Mathlib

/-!
Shallow embedding of the core of ilp-plugin-http (src/src/index.ts): the Koa
inbound middleware, the outbound sender `sendData`, multi-tenant URL
generation `_generateUrl`, the HTTP/2 per-origin session pool
(`_getHttp2ClientForOrigin`, `_fetch`), and `disconnect`.

External collaborators (the ilp-packet parser, the ILDCP protocol helpers,
the Auth gate, the WHATWG URL parser, and the HTTP clients in lib/http2 and
node-fetch) are modelled at their interface boundary, as the spec describes
them; each such definition carries a doc comment saying so.  Everything else
is translated line by line from src/src/index.ts.
-/

deriving instance DecidableEq for Except

namespace IlpPluginHttp

/-- Modelled from the spec: a node `Buffer` carrying a wire packet of the
external binary format (ilp-packet collaborator), viewed at the level of the
packet it encodes.  The first bytes encode a type tag (Prepare, Fulfill,
Reject); the Prepare variant carries a textual destination address; a buffer
may also hold bytes that are no valid packet at all. -/
inductive WirePacket where
  | prepare (destination : String) (payload : String)
  | fulfill (payload : String)
  | reject (payload : String)
  | malformed (bytes : String)
deriving DecidableEq

/-- The result of `IlpPacket.deserializeIlpPrepare`: the fields of a Prepare
packet that the plugin reads (only the destination is ever inspected). -/
structure IlpPrepare where
  destination : String
  payload : String
deriving DecidableEq

/-- Modelled from the spec: the external ilp-packet collaborator function
`deserializeIlpPrepare`, which succeeds exactly on buffers whose type tag is
Prepare ("deserialize Prepare packet -> \x7bdestination, ...\x7d") and throws
on every other buffer. -/
def deserializeIlpPrepare : WirePacket → Except String IlpPrepare
  | .prepare d p => .ok ⟨d, p⟩
  | .fulfill _ => .error "packet is not an ilp prepare"
  | .reject _ => .error "packet is not an ilp prepare"
  | .malformed _ => .error "packet is not an ilp prepare"

/-- The fields of an `ILDCP.IldcpResponse` that the plugin reads or rewrites:
the configuration-discovery response. -/
structure IldcpResponse where
  clientAddress : String
  assetScale : Nat
  assetCode : String
deriving DecidableEq

/-- Modelled from the spec: a handle to one pooled HTTP/2 session
(`Http2Client` from lib/http2, which is not under src/).  `id` models the
object identity of each `new Http2Client(...)` construction — every
construction yields a fresh, distinct handle; `closed` models the effect of
its `close()` method ("closes every pooled transport session"). -/
structure Http2Client where
  id : Nat
  origin : String
  maxRequestsPerSession : Option Nat
  closed : Bool
deriving DecidableEq

/-- The mutable fields of the `PluginHttp` class (src/src/index.ts lines
50-98) that the embedded operations read and write.  `http2Clients` embeds
the `Http2ClientMap` object as an association list in insertion order;
`nextClientId` is the freshness counter backing `Http2Client.id`. -/
structure PluginState where
  connected : Bool
  multi : Bool
  multiDelimiter : String
  ildcp : Option IldcpResponse
  url : String
  http2 : Bool
  http2Clients : List (String × Http2Client)
  nextClientId : Nat
  http2MaxRequestsPerSession : Option Nat
  name : String
  sendIlpDestination : Bool
  dataHandler : Option (WirePacket → WirePacket)

/-- `_fetchIldcp` (index.ts lines 172-182): return the cached response if
present; otherwise, when a data handler is registered, the ILDCP round trip
through the handler produces a response (its value is the parameter
`fetched`, since `ILDCP.fetch` is an external collaborator) which the code
also writes into the cache; with no handler it throws.  The claims below only
exercise the cached-or-error behaviour, so the cache write is not threaded
through the state here. -/
def fetchIldcp (fetched : IldcpResponse) (s : PluginState) :
    Except String IldcpResponse :=
  match s.ildcp with
  | some i => .ok i
  | none =>
    match s.dataHandler with
    | some _ => .ok fetched
    | none => .error "data handler must be registered to fetch ildcp"

/-- A character allowed by the segment check: the regex
`INVALID_SEGMENT = [^A-Za-z0-9_\-]` (index.ts line 19) matches exactly the
characters outside this set. -/
def validSegmentChar (c : Char) : Bool :=
  (decide ('A' ≤ c) && decide (c ≤ 'Z')) ||
    (decide ('a' ≤ c) && decide (c ≤ 'z')) ||
    (decide ('0' ≤ c) && decide (c ≤ '9')) || c == '_' || c == '-'

/-- `INVALID_SEGMENT.test segment` (index.ts line 191): true when some
character of the segment falls outside `[A-Za-z0-9_-]`. -/
def invalidSegmentTest (segment : String) : Bool :=
  segment.data.any (fun c => !(validSegmentChar c))

/-- The characters before the first dot: JavaScript `split` on a dot never
yields an empty array, and index 0 of the result is exactly this piece. -/
def firstDotSegment : List Char → List Char
  | [] => []
  | c :: rest => if c = '.' then [] else c :: firstDotSegment rest

/-- The segment computation of `_generateUrl` (index.ts lines 187-189):
take `destination.substring(clientAddress.length + 1)`, split it on dots,
and keep the first piece.  JavaScript `substring(n)` clamps `n` to the
string length, which is exactly `List.drop` on the characters. -/
def extractSegment (clientAddress destination : String) : String :=
  ⟨firstDotSegment (destination.data.drop (clientAddress.length + 1))⟩

/-- Whether `pat` occurs at the head of `s`. -/
def listStartsWith : List Char → List Char → Bool
  | _, [] => true
  | [], _ :: _ => false
  | c :: cs, p :: ps => c == p && listStartsWith cs ps

/-- Replace the first occurrence of the nonempty pattern `pat` in `s` by
`rep`; `s` is returned unchanged when `pat` does not occur. -/
def replaceFirstList (pat rep : List Char) : List Char → List Char
  | [] => []
  | c :: rest =>
    if listStartsWith (c :: rest) pat then rep ++ (c :: rest).drop pat.length
    else c :: replaceFirstList pat rep rest

/-- JavaScript `String.prototype.replace` with a string pattern: replace the
first occurrence of `pat` in `s` by `rep` (and `s` unchanged when `pat` does
not occur; an empty pattern matches at position 0).  Faithful for every
replacement string free of `$`, which the validated segments always are. -/
def jsReplaceFirst (s pat rep : String) : String :=
  if pat = "" then rep ++ s
  else ⟨replaceFirstList pat.data rep.data s.data⟩

/-- `_generateUrl` (index.ts lines 185-197): fetch the ILDCP response,
extract the routing segment from the destination, reject it when it contains
a character outside `[A-Za-z0-9_-]`, and otherwise splice it into the base
URL in place of the delimiter. -/
def generateUrl (fetched : IldcpResponse) (s : PluginState)
    (destination : String) : Except String String :=
  match fetchIldcp fetched s with
  | .error e => .error e
  | .ok ildcp =>
    let segment := extractSegment ildcp.clientAddress destination
    if invalidSegmentTest segment then .error "invalid address segment"
    else .ok (jsReplaceFirst s.url s.multiDelimiter segment)

/-- The outbound HTTP request handed to the transport layer by `sendData`:
resolved URL, method, assembled headers, raw packet body. -/
structure OutboundRequest where
  url : String
  method : String
  headers : List (String × String)
  body : WirePacket
deriving DecidableEq

/-- Modelled from the spec: the response surfaced by the transport
collaborators (node-fetch `Response` / `Http2FetchResponse` from lib/http2):
`ok` is the success indicator of the collaborator for `status` ("if the response
status does not indicate success"), and `body` is what `res.buffer()`
returns. -/
structure FetchResponse where
  ok : Bool
  status : Nat
  body : WirePacket

/-- Header assembly and URL resolution of `sendData` (index.ts lines
226-244), factored out of the network call: build the authorization,
content-type and peer-name headers, and when multi-tenant or
destination-forwarding mode is on, deserialize the buffer as a Prepare to
read its destination, optionally add the `ILP-Destination` header, and in
multi-tenant mode template the URL via `_generateUrl`. -/
def resolveOutbound (fetched : IldcpResponse) (token : String)
    (s : PluginState) (data : WirePacket) : Except String OutboundRequest :=
  let baseHeaders := [("Authorization", token),
    ("Content-Type", "application/ilp+octet-stream"),
    ("ILP-Peer-Name", s.name)]
  if s.multi || s.sendIlpDestination then
    match deserializeIlpPrepare data with
    | .error e => .error e
    | .ok parsed =>
      let headers :=
        if s.sendIlpDestination then
          baseHeaders ++ [("ILP-Destination", parsed.destination)]
        else baseHeaders
      if s.multi then
        match generateUrl fetched s parsed.destination with
        | .error e => .error e
        | .ok u => .ok ⟨u, "POST", headers, data⟩
      else .ok ⟨s.url, "POST", headers, data⟩
  else .ok ⟨s.url, "POST", baseHeaders, data⟩

/-- The URL of a successfully resolved outbound request, `none` when the
resolution failed: the observation the URL-templating claims are stated
over. -/
def requestUrl : Except String OutboundRequest → Option String
  | .ok r => some r.url
  | .error _ => none

/-- `sendData` (index.ts lines 221-258).  `getToken` is the outcome of the
outcome from `produceOutgoing` of the Auth-gate collaborator; `net` is the transport: it maps
the request that actually goes out on the wire to the response of the peer.
The code throws before either is consulted when the plugin is not connected,
propagates token and URL-resolution failures, throws
`failed to fetch. code=<status>` when the response is not ok, and otherwise
returns the response body buffer. -/
def sendData (fetched : IldcpResponse) (getToken : Except String String)
    (net : OutboundRequest → FetchResponse) (s : PluginState)
    (data : WirePacket) : Except String WirePacket :=
  if s.connected = false then .error "plugin is not connected."
  else
    match getToken with
    | .error e => .error e
    | .ok token =>
      match resolveOutbound fetched token s data with
      | .error e => .error e
      | .ok r =>
        let res := net r
        if res.ok then .ok res.body
        else .error ("failed to fetch. code=" ++ toString res.status)

/-- An inbound HTTP request as the Koa middleware sees it: the method, the
`authorization` and `ilp-peer-name` headers (the Koa `ctx.get` accessor yields the
empty string for a missing header), and the body buffer. -/
structure InboundRequest where
  method : String
  authorization : String
  peerName : String
  body : WirePacket
deriving DecidableEq

/-- A response body written by the middleware: the fixed health text, a
serialized ILDCP response (`ILDCP.serializeIldcpResponse`), or the binary
buffer returned by the data handler. -/
inductive Body where
  | text (s : String)
  | ildcpResp (r : IldcpResponse)
  | bin (b : WirePacket)
deriving DecidableEq

/-- What the middleware does with one request: `respond status body` for a
normal `ctx.body` write (Koa defaults the status to 200), `herror` for
`ctx.throw(status, msg)`, and `failure` for an exception thrown inside the
middleware (e.g. a deserialization or ILDCP error), which Koa turns into an
error response without reaching any later step. -/
inductive Outcome where
  | respond (status : Nat) (body : Body)
  | herror (status : Nat) (msg : String)
  | failure (msg : String)
deriving DecidableEq

/-- The tail of the middleware (index.ts lines 139-144): reject with 502
when no data handler is registered, otherwise invoke it on the raw buffer
and respond with its result.  The boolean records whether the registered
handler was invoked. -/
def dispatchToHandler (s : PluginState) (req : InboundRequest) :
    Outcome × Bool :=
  match s.dataHandler with
  | none => (.herror 502 "no handler registered.", false)
  | some h => (.respond 200 (.bin (h req.body)), true)

/-- The Koa middleware installed by `connect` (index.ts lines 104-145):
health short-circuit on GET, auth check, connected check, then in
multi-tenant mode deserialize the body as a Prepare and intercept the
reserved `peer.config` destination with a rewritten ILDCP response, and
finally dispatch to the registered handler.  `verify` is the Auth-gate
`verifyIncoming` of the Auth-gate collaborator; `fetched` feeds `fetchIldcp` as above.
The boolean of the result records whether the data handler was invoked. -/
def handleRequest (verify : String → Bool) (fetched : IldcpResponse)
    (s : PluginState) (req : InboundRequest) : Outcome × Bool :=
  if req.method = "GET" then (.respond 200 (.text "OK"), false)
  else if verify req.authorization = false then
    (.herror 401 "invalid authorization", false)
  else if s.connected = false then (.herror 502 "server is closed", false)
  else if s.multi then
    match deserializeIlpPrepare req.body with
    | .error e => (.failure e, false)
    | .ok parsed =>
      if parsed.destination = "peer.config" then
        match fetchIldcp fetched s with
        | .error e => (.failure e, false)
        | .ok ildcp =>
          (.respond 200 (.ildcpResp
            { ildcp with clientAddress :=
                ildcp.clientAddress ++ "." ++ req.peerName }), false)
      else dispatchToHandler s req
  else dispatchToHandler s req

/-- First-match lookup in the `Http2ClientMap` association list: the
JavaScript property read `this._http2Clients[origin]`. -/
def clientFor (tbl : List (String × Http2Client)) (origin : String) :
    Option Http2Client :=
  match tbl with
  | [] => none
  | (o, c) :: rest => if o = origin then some c else clientFor rest origin

/-- `_getHttp2ClientForOrigin` (index.ts lines 199-207): return the pooled
client for the origin, lazily constructing and storing a fresh one on the
first request for that origin. -/
def getHttp2ClientForOrigin (s : PluginState) (origin : String) :
    PluginState × Http2Client :=
  match clientFor s.http2Clients origin with
  | some c => (s, c)
  | none =>
    let c : Http2Client :=
      { id := s.nextClientId
        origin := origin
        maxRequestsPerSession := s.http2MaxRequestsPerSession
        closed := false }
    ({ s with
        http2Clients := s.http2Clients ++ [(origin, c)]
        nextClientId := s.nextClientId + 1 }, c)

/-- Split at the first occurrence of the nonempty pattern `pat`: the part
before it and the part after it, or none when `pat` does not occur. -/
def breakOnPat (pat : List Char) : List Char → Option (List Char × List Char)
  | [] => none
  | c :: rest =>
    if listStartsWith (c :: rest) pat then some ([], (c :: rest).drop pat.length)
    else
      match breakOnPat pat rest with
      | some q => some (c :: q.1, q.2)
      | none => none

/-- Modelled from the spec: the scheme part of `new URL(url)` (platform
WHATWG URL collaborator), for already-normalized absolute URLs as used by
the plugin.  Returns the scheme and the remainder after the scheme
separator. -/
def urlSchemeRest (url : String) : String × String :=
  match breakOnPat [':', '/', '/'] url.data with
  | some q => (⟨q.1⟩, ⟨q.2⟩)
  | none => ("", url)

/-- Modelled from the spec: the host (with port, when present) component of
`new URL(url)` — everything after the scheme separator up to the first
slash. -/
def urlHost (url : String) : String :=
  ⟨(urlSchemeRest url).2.data.takeWhile (fun c => c != '/')⟩

/-- Modelled from the spec: `new URL(url).origin`, the scheme+host+port
tuple identifying a distinct upstream endpoint. -/
def urlOrigin (url : String) : String :=
  (urlSchemeRest url).1 ++ "://" ++ urlHost url

/-- Modelled from the spec: the path together with the query string of the
URL — everything after the host, with any fragment removed.  This is the
"path+query portion of the URL" the spec speaks of. -/
def urlPathQuery (url : String) : String :=
  ⟨((urlSchemeRest url).2.data.dropWhile (fun c => c != '/')).takeWhile
      (fun c => c != '#')⟩

/-- Modelled from the spec: `new URL(url).pathname` — the path component
only, excluding the query string and fragment. -/
def urlPathname (url : String) : String :=
  ⟨(urlPathQuery url).data.takeWhile (fun c => c != '?')⟩

/-- The request a call to `_fetch` hands to a transport collaborator: over a
pooled HTTP/2 session (identified by its client handle) with a request path,
or as a one-shot HTTP/1.1 fetch with the full URL. -/
inductive FetchAction where
  | overHttp2 (clientId : Nat) (path : String)
  | overHttp1 (url : String)
deriving DecidableEq

/-- `_fetch` (index.ts lines 210-219): when HTTP/2 is selected, destructure
`new URL(url)` into origin and pathname, obtain the pooled client for the
origin, and issue the request over it with the pathname; otherwise issue a
plain fetch of the full URL.  Returns the updated state (the pool may have
grown) and the action handed to the transport. -/
def pluginFetch (s : PluginState) (url : String) :
    PluginState × FetchAction :=
  if s.http2 then
    let origin := urlOrigin url
    let pathname := urlPathname url
    let sc := getHttp2ClientForOrigin s origin
    (sc.1, .overHttp2 sc.2.id pathname)
  else (s, .overHttp1 url)

/-- The effect of `client.close()` on a pooled session handle (lib/http2 is
not under src/; modelled from the spec: closing a session leaves it closed). -/
def closeClient (c : Http2Client) : Http2Client :=
  { c with closed := true }

/-- `disconnect` (index.ts lines 152-162): a no-op when already
disconnected; otherwise close every pooled HTTP/2 client and clear the
connected flag.  The code iterates `Object.values(this._http2Clients)`
calling `close()` but never deletes the entries, so the table keeps every
(now closed) handle.  The HTTP server teardown and the emitted event have no
bearing on the state modelled here. -/
def disconnect (s : PluginState) : PluginState :=
  if s.connected = false then s
  else
    { s with
        http2Clients := s.http2Clients.map (fun p => (p.1, closeClient p.2))
        connected := false }

/-- Well-formedness of the session pool, established by the constructor
(`this._http2Clients = \x7b\x7d`) and preserved by every operation: every
stored handle id is below the freshness counter, origins are stored at most
once, and distinct entries hold distinct handles. -/
def wfClients (s : PluginState) : Prop :=
  (∀ p ∈ s.http2Clients, p.2.id < s.nextClientId) ∧
    (s.http2Clients.map Prod.fst).Nodup ∧
    (s.http2Clients.map (fun p => p.2.id)).Nodup

/-! Concrete fixtures used by witnesses and counterexamples: a cached ILDCP
response for address `g.node1`, a plugin configured as in the spec examples
(multi-tenant, delimiter `%`, base URL `https://example.com/%/ilp`), and
concrete transport functions. -/

/-- A cached configuration-discovery response for local address `g.node1`. -/
def exIldcp : IldcpResponse :=
  { clientAddress := "g.node1"
    assetScale := 9
    assetCode := "XRP" }

/-- A registered data handler returning a fixed Fulfill buffer. -/
def exHandler : WirePacket → WirePacket := fun _ => .fulfill "ok"

/-- A connected multi-tenant plugin with delimiter `%`, templated base URL,
cached ILDCP response and a registered handler. -/
def exState : PluginState :=
  { connected := true
    multi := true
    multiDelimiter := "%"
    ildcp := some exIldcp
    url := "https://example.com/%/ilp"
    http2 := false
    http2Clients := []
    nextClientId := 0
    http2MaxRequestsPerSession := none
    name := "node1"
    sendIlpDestination := false
    dataHandler := some exHandler }

/-- The same plugin, disconnected. -/
def exStateDisc : PluginState :=
  { exState with connected := false }

/-- The same plugin with the HTTP/2 transport selected and an empty pool. -/
def exPoolState : PluginState :=
  { exState with http2 := true }

/-- A transport that always answers 200 with a Fulfill body. -/
def exNet : OutboundRequest → FetchResponse :=
  fun _ => { ok := true, status := 200, body := .fulfill "f" }

/-- A transport that always answers 500. -/
def exNetFail : OutboundRequest → FetchResponse :=
  fun _ => { ok := false, status := 500, body := .reject "r" }

/-- A Prepare buffer addressed to tenant alice behind `g.node1`. -/
def exPrepare : WirePacket := .prepare "g.node1.alice.123" "p"

/-- The outbound request `sendData` resolves for `exPrepare` on `exState`
with token `tok`. -/
def exReq1 : OutboundRequest :=
  { url := "https://example.com/alice/ilp"
    method := "POST"
    headers := [("Authorization", "tok"),
      ("Content-Type", "application/ilp+octet-stream"),
      ("ILP-Peer-Name", "node1")]
    body := exPrepare }

/-- An authenticated inbound POST carrying `exPrepare`. -/
def exPostReq : InboundRequest :=
  { method := "POST"
    authorization := "Bearer tok"
    peerName := "alice"
    body := exPrepare }

/-- An inbound health probe with no credentials. -/
def exGetReq : InboundRequest :=
  { exPostReq with method := "GET", authorization := "" }

/-- An authenticated inbound POST to the reserved discovery address. -/
def exConfigReq : InboundRequest :=
  { exPostReq with body := .prepare "peer.config" "" }

/-- An authenticated inbound POST whose body is a Fulfill, not a Prepare. -/
def exFulfillReq : InboundRequest :=
  { exPostReq with body := .fulfill "z" }

/-- A verifier accepting every credential. -/
def exVerify : String → Bool := fun _ => true

/-- One open pooled session handle for origin `https://a.example`. -/
def exClient : Http2Client :=
  { id := 0
    origin := "https://a.example"
    maxRequestsPerSession := none
    closed := false }

/-- A connected plugin whose pool holds the one session `exClient`. -/
def exConnState : PluginState :=
  { exState with
      http2 := true
      http2Clients := [("https://a.example", exClient)]
      nextClientId := 1 }

/-- Claim C4: every inbound request using the health-probe method (GET) is
answered 200 with the fixed body OK and processing stops, regardless of the
authorization header, the connection state, and handler registration; the
check precedes authentication (the verifier is never consulted). -/
theorem C4_health_probe (verify : String → Bool) (fetched : IldcpResponse)
    (s : PluginState) (req : InboundRequest) (hm : req.method = "GET") :
    handleRequest verify fetched s req = (.respond 200 (.text "OK"), false) := by
  simp [handleRequest, hm]

theorem C4_health_probe_witness :
    handleRequest (fun _ => false) exIldcp exStateDisc exGetReq =
      (.respond 200 (.text "OK"), false) :=
  C4_health_probe (fun _ => false) exIldcp exStateDisc exGetReq rfl

/-- Claim C3: while disconnected every operation fails — an authenticated
non-health inbound request is answered 502 (whatever the verifier, the
handler slot and the rest of the state), and every `sendData` call fails
immediately, for every possible token outcome and every transport, so
neither the token acquisition nor the network is ever consulted. -/
theorem C3_disconnected_fails :
    (∀ (verify : String → Bool) (fetched : IldcpResponse) (s : PluginState)
        (req : InboundRequest), req.method ≠ "GET" →
        verify req.authorization = true → s.connected = false →
        handleRequest verify fetched s req =
          (.herror 502 "server is closed", false)) ∧
    (∀ (fetched : IldcpResponse) (getToken : Except String String)
        (net : OutboundRequest → FetchResponse) (s : PluginState)
        (data : WirePacket), s.connected = false →
        sendData fetched getToken net s data =
          .error "plugin is not connected.") := by
  constructor
  · intro verify fetched s req hm ha hc
    simp [handleRequest, hm, ha, hc]
  · intro fetched getToken net s data hc
    simp [sendData, hc]

theorem C3_disconnected_fails_witness :
    handleRequest exVerify exIldcp exStateDisc exPostReq =
      (.herror 502 "server is closed", false) ∧
    sendData exIldcp (.ok "tok") exNet exStateDisc exPrepare =
      .error "plugin is not connected." :=
  ⟨C3_disconnected_fails.1 exVerify exIldcp exStateDisc exPostReq
      (by decide) rfl rfl,
    C3_disconnected_fails.2 exIldcp (.ok "tok") exNet exStateDisc exPrepare rfl⟩

/-- Claim C10: in multi-tenant mode the body of every authenticated inbound
non-health request is deserialized as a Prepare before the no-handler check
and before dispatch; a body that is not a valid Prepare packet makes the
request fail with the deserialization error and the registered handler is
never invoked, whether or not one is registered. -/
theorem C10_multi_deserializes_first (verify : String → Bool)
    (fetched : IldcpResponse) (s : PluginState) (req : InboundRequest)
    (e : String) (hm : req.method ≠ "GET")
    (ha : verify req.authorization = true) (hc : s.connected = true)
    (hmulti : s.multi = true)
    (hd : deserializeIlpPrepare req.body = .error e) :
    handleRequest verify fetched s req = (.failure e, false) := by
  simp [handleRequest, hm, ha, hc, hmulti, hd]

theorem C10_multi_deserializes_first_witness :
    handleRequest exVerify exIldcp exState exFulfillReq =
      (.failure "packet is not an ilp prepare", false) :=
  C10_multi_deserializes_first exVerify exIldcp exState exFulfillReq
    "packet is not an ilp prepare" (by decide) rfl rfl rfl rfl

/-- Claim C2: in multi-tenant mode an authenticated inbound request whose
body is a Prepare addressed exactly to `peer.config` is answered 200 with a
discovery response whose client address is the cached base address joined
with a dot and the peer-name header, and the registered packet handler is
not invoked; for any other destination the interception does not fire and
the request falls through to general dispatch. -/
theorem C2_peer_config_interception (verify : String → Bool)
    (fetched : IldcpResponse) (s : PluginState) (req : InboundRequest)
    (parsed : IlpPrepare) (i : IldcpResponse) (hm : req.method ≠ "GET")
    (ha : verify req.authorization = true) (hc : s.connected = true)
    (hmulti : s.multi = true) (hi : s.ildcp = some i)
    (hd : deserializeIlpPrepare req.body = .ok parsed) :
    (parsed.destination = "peer.config" →
      handleRequest verify fetched s req =
        (.respond 200 (.ildcpResp
          { i with clientAddress :=
              i.clientAddress ++ "." ++ req.peerName }), false)) ∧
    (parsed.destination ≠ "peer.config" →
      handleRequest verify fetched s req = dispatchToHandler s req) := by
  constructor <;> intro hdest <;>
    simp [handleRequest, fetchIldcp, hm, ha, hc, hmulti, hi, hd, hdest]

theorem C2_peer_config_interception_witness :
    handleRequest exVerify exIldcp exState exConfigReq =
      (.respond 200 (.ildcpResp
        { exIldcp with clientAddress :=
            exIldcp.clientAddress ++ "." ++ exConfigReq.peerName }), false) ∧
    handleRequest exVerify exIldcp exState exPostReq =
      dispatchToHandler exState exPostReq :=
  ⟨(C2_peer_config_interception exVerify exIldcp exState exConfigReq
      ⟨"peer.config", ""⟩ exIldcp (by decide) rfl rfl rfl rfl rfl).1 rfl,
    (C2_peer_config_interception exVerify exIldcp exState exPostReq
      ⟨"g.node1.alice.123", "p"⟩ exIldcp (by decide) rfl rfl rfl rfl rfl).2
      (by decide)⟩

/-- Claim C9: the routing-key validation accepts the empty segment — when
the extracted segment of a destination is the empty string (for instance a
destination equal to the cached local address, or shorter), URL generation
does not raise the invalid-address error and the delimiter placeholder in
the base URL is replaced by the empty string. -/
theorem C9_empty_segment_accepted (fetched : IldcpResponse)
    (s : PluginState) (d : String) (i : IldcpResponse)
    (hi : s.ildcp = some i) (hseg : extractSegment i.clientAddress d = "") :
    generateUrl fetched s d =
      .ok (jsReplaceFirst s.url s.multiDelimiter "") := by
  have h0 : invalidSegmentTest "" = false := rfl
  simp [generateUrl, fetchIldcp, hi, hseg, h0]

theorem C9_empty_segment_accepted_witness :
    generateUrl exIldcp exState "g.node1" =
      .ok (jsReplaceFirst exState.url exState.multiDelimiter "") ∧
    jsReplaceFirst exState.url exState.multiDelimiter "" =
      "https://example.com//ilp" :=
  ⟨C9_empty_segment_accepted exIldcp exState "g.node1" exIldcp rfl
      (by decide), by decide⟩

/-- Claim C5: a `sendData` call that reaches the network fails with an
error carrying the numeric response status exactly when the response does
not indicate success, and otherwise returns the response body buffer. -/
theorem C5_upstream_status (fetched : IldcpResponse) (tok : String)
    (net : OutboundRequest → FetchResponse) (s : PluginState)
    (data : WirePacket) (r : OutboundRequest) (hc : s.connected = true)
    (hr : resolveOutbound fetched tok s data = .ok r) :
    (sendData fetched (.ok tok) net s data =
        .error ("failed to fetch. code=" ++ toString (net r).status) ↔
      (net r).ok = false) ∧
    ((net r).ok = true →
      sendData fetched (.ok tok) net s data = .ok (net r).body) := by
  cases h : (net r).ok <;> simp [sendData, hc, hr, h]

theorem dropLengthAppend {α : Type} (l₁ l₂ : List α) :
    (l₁ ++ l₂).drop l₁.length = l₂ := by
  induction l₁ with
  | nil => simp
  | cons a t ih => simp [ih]

theorem extractSegment_prefixed (ca rest : String) :
    extractSegment ca (ca ++ "." ++ rest) = ⟨firstDotSegment rest.data⟩ := by
  unfold extractSegment
  have hdot : ("." : String).data = ['.'] := rfl
  have hdata : (ca ++ "." ++ rest).data = (ca.data ++ ['.']) ++ rest.data := by
    rw [String.data_append, String.data_append, hdot]
  have hlen : ca.length + 1 = (ca.data ++ ['.']).length := by
    rw [List.length_append]
    rfl
  rw [hdata, hlen, dropLengthAppend]

/-- Claim C1: for every Prepare packet sent via `sendData` in multi-tenant
mode, the outgoing URL is derived by stripping the cached local-address
prefix and its following separator from the destination, taking the next
dot-delimited segment as the routing key, failing with the invalid-address
error before any network call when the segment holds a character other than
letters, digits, underscore and hyphen, and otherwise substituting the
segment for the delimiter placeholder in the base outgoing URL; with cached
local address g.node1 and destination g.node1.alice.123 the segment is
alice, with destination g.node1.bad/seg.x it fails, and base URL
https://example.com/%/ilp with delimiter % and key alice resolves to
https://example.com/alice/ilp. -/
theorem C1_multi_tenant_routing :
    (∀ (fetched : IldcpResponse) (tok : String) (s : PluginState)
        (data : WirePacket) (parsed : IlpPrepare) (i : IldcpResponse)
        (rest : String), s.multi = true → s.ildcp = some i →
        deserializeIlpPrepare data = .ok parsed →
        parsed.destination = i.clientAddress ++ "." ++ rest →
        (invalidSegmentTest ⟨firstDotSegment rest.data⟩ = false →
          requestUrl (resolveOutbound fetched tok s data) =
            some (jsReplaceFirst s.url s.multiDelimiter
              ⟨firstDotSegment rest.data⟩)) ∧
        (invalidSegmentTest ⟨firstDotSegment rest.data⟩ = true →
          ∀ (net : OutboundRequest → FetchResponse), s.connected = true →
            sendData fetched (.ok tok) net s data =
              .error "invalid address segment")) ∧
    extractSegment "g.node1" "g.node1.alice.123" = "alice" ∧
    invalidSegmentTest (extractSegment "g.node1" "g.node1.bad/seg.x") = true ∧
    jsReplaceFirst "https://example.com/%/ilp" "%" "alice" =
      "https://example.com/alice/ilp" := by
  refine ⟨?_, by decide, by decide, by decide⟩
  intro fetched tok s data parsed i rest hmulti hi hd hdest
  have hseg : extractSegment i.clientAddress parsed.destination =
      ⟨firstDotSegment rest.data⟩ := by
    rw [hdest]; exact extractSegment_prefixed _ _
  constructor
  · intro hvalid
    cases hs : s.sendIlpDestination <;>
      simp [resolveOutbound, generateUrl, fetchIldcp, requestUrl,
        hmulti, hi, hd, hseg, hvalid, hs]
  · intro hinvalid net hc
    simp [sendData, resolveOutbound, generateUrl, fetchIldcp,
      hmulti, hi, hd, hseg, hinvalid, hc]

theorem C1_multi_tenant_routing_witness :
    sendData exIldcp (.ok "tok") exNet exState
        (.prepare "g.node1.bad/seg.x" "") =
      .error "invalid address segment" ∧
    requestUrl (resolveOutbound exIldcp "tok" exState exPrepare) =
      some (jsReplaceFirst exState.url exState.multiDelimiter
        ⟨firstDotSegment "alice.123".data⟩) :=
  ⟨((C1_multi_tenant_routing.1 exIldcp "tok" exState
      (.prepare "g.node1.bad/seg.x" "") ⟨"g.node1.bad/seg.x", ""⟩ exIldcp
      "bad/seg.x" rfl rfl rfl (by decide)).2 (by decide)) exNet rfl,
    (C1_multi_tenant_routing.1 exIldcp "tok" exState exPrepare
      ⟨"g.node1.alice.123", "p"⟩ exIldcp "alice.123" rfl rfl rfl
      (by decide)).1 (by decide)⟩

theorem C5_upstream_status_witness :
    sendData exIldcp (.ok "tok") exNetFail exState exPrepare =
      .error ("failed to fetch. code=" ++ toString (exNetFail exReq1).status) ∧
    sendData exIldcp (.ok "tok") exNet exState exPrepare =
      .ok (exNet exReq1).body :=
  ⟨(C5_upstream_status exIldcp "tok" exNetFail exState exPrepare exReq1 rfl
      (by decide)).1.mpr rfl,
    (C5_upstream_status exIldcp "tok" exNet exState exPrepare exReq1 rfl
      (by decide)).2 rfl⟩

theorem clientFor_mem {tbl : List (String × Http2Client)} {o : String}
    {c : Http2Client} (h : clientFor tbl o = some c) : (o, c) ∈ tbl := by
  induction tbl with
  | nil => simp [clientFor] at h
  | cons hd tl ih =>
    obtain ⟨ho, hc⟩ := hd
    rw [clientFor] at h
    split at h
    · rename_i he
      injection h with h2
      subst h2
      subst he
      exact List.mem_cons_self _ _
    · exact List.mem_cons_of_mem _ (ih h)

theorem clientFor_none {tbl : List (String × Http2Client)} {o : String}
    (h : clientFor tbl o = none) : o ∉ tbl.map Prod.fst := by
  induction tbl with
  | nil => simp
  | cons hd tl ih =>
    obtain ⟨ho, hc⟩ := hd
    rw [clientFor] at h
    split at h
    · exact absurd h (by simp)
    · rename_i he
      simp only [List.map_cons, List.mem_cons]
      rintro (h1 | h2)
      · exact he h1.symm
      · exact ih h h2

theorem clientFor_append_other {tbl : List (String × Http2Client)}
    {o o2 : String} (c : Http2Client) (hne : o ≠ o2) :
    clientFor (tbl ++ [(o, c)]) o2 = clientFor tbl o2 := by
  induction tbl with
  | nil => simp [clientFor, hne]
  | cons hd tl ih =>
    obtain ⟨ho, hc⟩ := hd
    by_cases he : ho = o2
    · simp [List.cons_append, clientFor, he]
    · simp [List.cons_append, clientFor, he, ih]

theorem clientFor_append_self {tbl : List (String × Http2Client)}
    {o : String} (c : Http2Client) (h : clientFor tbl o = none) :
    clientFor (tbl ++ [(o, c)]) o = some c := by
  induction tbl with
  | nil => simp [clientFor]
  | cons hd tl ih =>
    obtain ⟨ho, hc⟩ := hd
    rw [clientFor] at h
    split at h
    · exact absurd h (by simp)
    · rename_i he
      simp [List.cons_append, clientFor, he, ih h]

theorem getClient_http2 (s : PluginState) (o : String) :
    (getHttp2ClientForOrigin s o).1.http2 = s.http2 := by
  cases h : clientFor s.http2Clients o <;>
    simp [getHttp2ClientForOrigin, h]

theorem getClient_found (s : PluginState) {o : String} {c : Http2Client}
    (h : clientFor s.http2Clients o = some c) :
    getHttp2ClientForOrigin s o = (s, c) := by
  simp [getHttp2ClientForOrigin, h]

theorem getClient_lookup_self (s : PluginState) (o : String) :
    clientFor (getHttp2ClientForOrigin s o).1.http2Clients o =
      some (getHttp2ClientForOrigin s o).2 := by
  cases h : clientFor s.http2Clients o with
  | none => simp [getHttp2ClientForOrigin, h, clientFor_append_self _ h]
  | some c => simp [getHttp2ClientForOrigin, h]

theorem getClient_wf (s : PluginState) (o : String) (hwf : wfClients s) :
    wfClients (getHttp2ClientForOrigin s o).1 := by
  obtain ⟨hbound, hkeys, hids⟩ := hwf
  cases h : clientFor s.http2Clients o with
  | some c =>
    rw [getClient_found s h]
    exact ⟨hbound, hkeys, hids⟩
  | none =>
    simp only [getHttp2ClientForOrigin, h]
    refine ⟨?_, ?_, ?_⟩
    · intro p hp
      rcases List.mem_append.mp hp with h1 | h2
      · exact Nat.lt_succ_of_lt (hbound p h1)
      · simp at h2
        subst h2
        exact Nat.lt_succ_self _
    · rw [List.map_append, List.nodup_append]
      refine ⟨hkeys, List.nodup_singleton _, ?_⟩
      intro a ha hb
      simp at hb
      subst hb
      exact clientFor_none h ha
    · rw [List.map_append, List.nodup_append]
      refine ⟨hids, List.nodup_singleton _, ?_⟩
      intro a ha hb
      simp at hb
      subst hb
      rcases List.mem_map.mp ha with ⟨p, hp, hid⟩
      exact absurd hid (Nat.ne_of_lt (hbound p hp))

theorem getClient_id_lt (s : PluginState) (o : String) (hwf : wfClients s) :
    (getHttp2ClientForOrigin s o).2.id <
      (getHttp2ClientForOrigin s o).1.nextClientId := by
  cases h : clientFor s.http2Clients o with
  | none =>
    simp only [getHttp2ClientForOrigin, h]
    exact Nat.lt_succ_self _
  | some c =>
    simp only [getHttp2ClientForOrigin, h]
    exact hwf.1 _ (clientFor_mem h)

/-- Claim C6: with the HTTP/2 transport selected, the session table holds
at most one session handle per origin (its well-formedness, origins stored
once, is preserved by every fetch), sessions are created lazily inside
`getHttp2ClientForOrigin` on first fetch to an origin, two fetches to URLs
sharing an origin use the same underlying session handle, and fetches to
distinct origins use distinct handles. -/
theorem C6_session_pool (s : PluginState) (u1 u2 : String)
    (h2 : s.http2 = true) (hwf : wfClients s) :
    (pluginFetch s u1).1 = (getHttp2ClientForOrigin s (urlOrigin u1)).1 ∧
    (pluginFetch s u1).2 =
      .overHttp2 (getHttp2ClientForOrigin s (urlOrigin u1)).2.id
        (urlPathname u1) ∧
    (pluginFetch (getHttp2ClientForOrigin s (urlOrigin u1)).1 u2).2 =
      .overHttp2
        (getHttp2ClientForOrigin
          (getHttp2ClientForOrigin s (urlOrigin u1)).1 (urlOrigin u2)).2.id
        (urlPathname u2) ∧
    wfClients (getHttp2ClientForOrigin s (urlOrigin u1)).1 ∧
    (urlOrigin u1 = urlOrigin u2 →
      (getHttp2ClientForOrigin
        (getHttp2ClientForOrigin s (urlOrigin u1)).1 (urlOrigin u2)).2.id =
        (getHttp2ClientForOrigin s (urlOrigin u1)).2.id) ∧
    (urlOrigin u1 ≠ urlOrigin u2 →
      (getHttp2ClientForOrigin
        (getHttp2ClientForOrigin s (urlOrigin u1)).1 (urlOrigin u2)).2.id ≠
        (getHttp2ClientForOrigin s (urlOrigin u1)).2.id) := by
  have hwf1 := getClient_wf s (urlOrigin u1) hwf
  have hmem1 : (urlOrigin u1, (getHttp2ClientForOrigin s (urlOrigin u1)).2) ∈
      (getHttp2ClientForOrigin s (urlOrigin u1)).1.http2Clients :=
    clientFor_mem (getClient_lookup_self s (urlOrigin u1))
  refine ⟨by simp [pluginFetch, h2], by simp [pluginFetch, h2],
    by simp [pluginFetch, getClient_http2, h2], hwf1, ?_, ?_⟩
  · intro ho
    rw [← ho,
      getClient_found (getHttp2ClientForOrigin s (urlOrigin u1)).1
        (getClient_lookup_self s (urlOrigin u1))]
  · intro hne hEq
    cases h : clientFor
        (getHttp2ClientForOrigin s (urlOrigin u1)).1.http2Clients
        (urlOrigin u2) with
    | none =>
      rw [getHttp2ClientForOrigin, h] at hEq
      have hlt := hwf1.1 _ hmem1
      exact absurd hEq.symm (Nat.ne_of_lt hlt)
    | some c2 =>
      rw [getClient_found _ h] at hEq
      have hmem2 : (urlOrigin u2, c2) ∈
          (getHttp2ClientForOrigin s (urlOrigin u1)).1.http2Clients :=
        clientFor_mem h
      have heq2 := List.inj_on_of_nodup_map hwf1.2.2 hmem2 hmem1 hEq
      exact hne (congrArg Prod.fst heq2).symm

theorem C6_session_pool_witness :
    (pluginFetch exPoolState "https://a.example/x").1 =
      (getHttp2ClientForOrigin exPoolState
        (urlOrigin "https://a.example/x")).1 ∧
    (pluginFetch exPoolState "https://a.example/x").2 =
      .overHttp2
        (getHttp2ClientForOrigin exPoolState
          (urlOrigin "https://a.example/x")).2.id
        (urlPathname "https://a.example/x") ∧
    (pluginFetch (getHttp2ClientForOrigin exPoolState
        (urlOrigin "https://a.example/x")).1 "https://a.example/y").2 =
      .overHttp2
        (getHttp2ClientForOrigin
          (getHttp2ClientForOrigin exPoolState
            (urlOrigin "https://a.example/x")).1
          (urlOrigin "https://a.example/y")).2.id
        (urlPathname "https://a.example/y") ∧
    wfClients (getHttp2ClientForOrigin exPoolState
      (urlOrigin "https://a.example/x")).1 ∧
    (urlOrigin "https://a.example/x" = urlOrigin "https://a.example/y" →
      (getHttp2ClientForOrigin
        (getHttp2ClientForOrigin exPoolState
          (urlOrigin "https://a.example/x")).1
        (urlOrigin "https://a.example/y")).2.id =
        (getHttp2ClientForOrigin exPoolState
          (urlOrigin "https://a.example/x")).2.id) ∧
    (urlOrigin "https://a.example/x" ≠ urlOrigin "https://a.example/y" →
      (getHttp2ClientForOrigin
        (getHttp2ClientForOrigin exPoolState
          (urlOrigin "https://a.example/x")).1
        (urlOrigin "https://a.example/y")).2.id ≠
        (getHttp2ClientForOrigin exPoolState
          (urlOrigin "https://a.example/x")).2.id) :=
  C6_session_pool exPoolState "https://a.example/x" "https://a.example/y"
    rfl ⟨by simp [exPoolState, exState], by simp [exPoolState, exState],
      by simp [exPoolState, exState]⟩

/-- Claim C7 counterexample: with the HTTP/2 transport selected, a fetch of
a URL carrying a query string issues the request with only the pathname;
the path+query portion is not what goes out, so the query string is not
preserved. -/
theorem C7_counterexample :
    (pluginFetch exPoolState "https://example.com/ilp?x=1").2 =
      .overHttp2 0 "/ilp" ∧
    urlPathQuery "https://example.com/ilp?x=1" = "/ilp?x=1" ∧
    (pluginFetch exPoolState "https://example.com/ilp?x=1").2 ≠
      .overHttp2 0 (urlPathQuery "https://example.com/ilp?x=1") := by
  refine ⟨by decide, by decide, by decide⟩

/-- Claim C7, amended: when the multiplexed (HTTP/2) transport is selected,
every request issued over a pooled session uses exactly the pathname of the
resolved URL (the origin is carried by the session); the query string of
the URL is dropped, not preserved — for the URL
https://example.com/ilp?x=1 the issued path is /ilp. -/
theorem C7_http2_request_path :
    (∀ (s : PluginState) (url : String), s.http2 = true →
      (pluginFetch s url).2 =
        .overHttp2 (getHttp2ClientForOrigin s (urlOrigin url)).2.id
          (urlPathname url)) ∧
    urlPathname "https://example.com/ilp?x=1" = "/ilp" ∧
    urlPathQuery "https://example.com/ilp?x=1" = "/ilp?x=1" := by
  refine ⟨?_, by decide, by decide⟩
  intro s url h2
  simp [pluginFetch, h2]

theorem C7_http2_request_path_witness :
    (pluginFetch exPoolState "https://example.com/ilp?x=1").2 =
      .overHttp2
        (getHttp2ClientForOrigin exPoolState
          (urlOrigin "https://example.com/ilp?x=1")).2.id
        (urlPathname "https://example.com/ilp?x=1") :=
  C7_http2_request_path.1 exPoolState "https://example.com/ilp?x=1" rfl

/-- Claim C8 counterexample: disconnecting from the connected state leaves
the session table populated — the handle with id 0 held before the
disconnect is still in the table afterwards, so the table is not torn down
entirely. -/
theorem C8_counterexample :
    exConnState.connected = true ∧
    exConnState.http2Clients.map (fun p => p.2.id) = [0] ∧
    (disconnect exConnState).http2Clients.map (fun p => p.2.id) = [0] ∧
    (disconnect exConnState).http2Clients ≠ [] := by
  refine ⟨rfl, by decide, by decide, by decide⟩

/-- Claim C8, amended: a disconnect() call from the connected state closes
every pooled transport session, leaving no session open on success; the
transport session table, however, is not cleared — every handle from
before the disconnect remains in the table (in its closed state), keyed by
the same origin. -/
theorem C8_disconnect_closes_sessions (s : PluginState)
    (hc : s.connected = true) :
    (∀ p ∈ (disconnect s).http2Clients, p.2.closed = true) ∧
    (disconnect s).http2Clients.map (fun p => (p.1, p.2.id)) =
      s.http2Clients.map (fun p => (p.1, p.2.id)) := by
  have hd : (disconnect s).http2Clients =
      s.http2Clients.map (fun q => (q.1, closeClient q.2)) := by
    simp [disconnect, hc]
  constructor
  · intro p hp
    rw [hd, List.mem_map] at hp
    obtain ⟨q, hq, hpq⟩ := hp
    rw [← hpq]
    rfl
  · rw [hd, List.map_map]
    rfl

theorem C8_disconnect_closes_sessions_witness :
    ("https://a.example", closeClient exClient) ∈
      (disconnect exConnState).http2Clients ∧
    (closeClient exClient).closed = true ∧
    (disconnect exConnState).http2Clients.map (fun p => (p.1, p.2.id)) =
      exConnState.http2Clients.map (fun p => (p.1, p.2.id)) :=
  ⟨by decide,
    (C8_disconnect_closes_sessions exConnState rfl).1
      ("https://a.example", closeClient exClient) (by decide),
    (C8_disconnect_closes_sessions exConnState rfl).2⟩

end IlpPluginHttp
